import Mathlib

/-!
Verification of the service-request lifecycle engine of the app-backend
repository: a shallow embedding of `controllers/serviceRequestController`
(src/unnamed/part_002), the `ServiceRequest` mongoose schema
(src/models/ServiceRequest.js), the email utility
(src/unnamed/part_001) and the service-request router wiring, together
with theorems settling the specified properties of creation, status
transitions, notification isolation, the public tracking projection and
the admin-note audit trail.

Modelling conventions:
- JSON body fields that may be absent are `Option` values.
- Machine-generated inputs (the `requestId` suffix, `Date.now()` clock,
  the Mongo `_id` of a new document) enter as explicit parameters.
- The request store is an association list from the internal storage key
  (the Mongo `_id`, a `Nat` here) to the stored document.
- The Notification Gateway is modelled by an `EmailOutcome` input saying
  what `sendStatusUpdateEmail` would do if invoked, and each handler
  result records the list of gateway invocations it performed
  (`emailCalls`), so that notification behaviour is observable.
- `requirements` is carried as an opaque payload (the spec: "opaque
  payload, not validated beyond size limits"); no handler inspects it.
-/

namespace AppBackend

/-- An entry of the append-only `adminNotes` audit list
(`{note, addedBy, addedAt}` in the schema). -/
structure AdminNote where
  note : String
  addedBy : String
  addedAt : Nat
deriving Repr, DecidableEq

/-- `selectionPath` of the schema: four optional ObjectId references into
the catalog (Category / Service / Template / Combo). -/
structure SelectionPath where
  selectedCategory : Option Nat
  selectedService : Option Nat
  selectedTemplate : Option Nat
  selectedCombo : Option Nat
deriving Repr, DecidableEq

/-- `clientInfo` of the schema. -/
structure ClientInfo where
  fullName : String
  email : String
  phone : String
  businessName : Option String := none
  industry : Option String := none
deriving Repr, DecidableEq

/-- `pricing` of the schema (admin-set, never touched by the modelled
handlers). -/
structure Pricing where
  quotedAmount : Option Nat := none
  finalAmount : Option Nat := none
  currency : String := "INR"
deriving Repr, DecidableEq

/-- A `deliverables` entry of the schema. -/
structure Deliverable where
  fileName : String
  fileUrl : String
  publicId : String
  deliveredAt : Nat
deriving Repr, DecidableEq

/-- A stored `ServiceRequest` document.  `requestType` is `Option` because
a request body may omit it (mongoose stores `undefined` and the schema's
`required` validator fires at save time).  `status` and `priority` hold
the schema defaults `"submitted"` / `"medium"` when not set. -/
structure ServiceRequest where
  requestId : String
  selectionPath : SelectionPath
  requestType : Option String
  clientInfo : ClientInfo
  requirements : String
  status : String := "submitted"
  priority : String := "medium"
  estimatedDelivery : Option Nat := none
  actualDelivery : Option Nat := none
  adminNotes : List AdminNote := []
  assignedTo : Option String := none
  pricing : Pricing := {}
  deliverables : List Deliverable := []
deriving Repr, DecidableEq

/-- The seven values of the `status` enum in the schema, in the order of
`validStatuses` in `updateRequestStatus`. -/
def validStatuses : List String :=
  ["submitted", "reviewing", "in-progress", "revision",
   "completed", "delivered", "cancelled"]

/-- The `priority` enum of the schema / `validPriorities` of
`updateRequestPriority`. -/
def validPriorities : List String := ["low", "medium", "high", "urgent"]

/-- JS `\S`: any non-whitespace character. -/
def isNonSpace (c : Char) : Bool := !c.isWhitespace

/-- The schema's email validator, the search regex `/\S+@\S+\.\S+/`:
some `'@'` at position `i` is preceded by a non-space character, some
`'.'` at a later position `j` has only non-space characters strictly
between `i` and `j` (at least one) and a non-space character after it. -/
def emailOk (s : String) : Bool :=
  let cs := s.data
  let n := cs.length
  (List.range n).any fun i =>
    (List.range n).any fun j =>
      i + 1 < j && j + 1 < n &&
      cs.getD i ' ' == '@' && cs.getD j ' ' == '.' &&
      decide (0 < i) && isNonSpace (cs.getD (i - 1) ' ') &&
      ((List.range n).all fun k =>
        !(i < k && k < j) || isNonSpace (cs.getD k ' ')) &&
      isNonSpace (cs.getD (j + 1) ' ')

/-- The schema's phone validator, the anchored regex `/^[6-9]\d{9}$/`:
exactly ten digits, the first in 6–9. -/
def phoneOk (s : String) : Bool :=
  s.length == 10 &&
  (match s.data with
   | c :: rest => ("6789".data.contains c) && rest.all Char.isDigit
   | [] => false)

/-- Mongoose validation run by `document.save()` on the paths the schema
constrains: `selectedCategory` required; `selectedService` required iff
`requestType === "service"`; `selectedCombo` required iff
`requestType === "combo"`; `requestType` required with enum
`["service","combo"]`; `status` and `priority` enums; `clientInfo`
required fields with the email/phone match patterns and the name length
cap (mongoose `required` on a String also rejects the empty string). -/
def validateDoc (r : ServiceRequest) : Bool :=
  r.selectionPath.selectedCategory.isSome &&
  (r.requestType != some "service" || r.selectionPath.selectedService.isSome) &&
  (r.requestType != some "combo" || r.selectionPath.selectedCombo.isSome) &&
  (r.requestType == some "service" || r.requestType == some "combo") &&
  validStatuses.contains r.status &&
  validPriorities.contains r.priority &&
  r.clientInfo.fullName != "" &&
  decide (r.clientInfo.fullName.length ≤ 100) &&
  emailOk r.clientInfo.email &&
  phoneOk r.clientInfo.phone

/-- `new ServiceRequest({selectionPath, requestType, clientInfo,
requirements})`: the explicit fields are set, every other path takes its
schema default (`status = "submitted"`, `priority = "medium"`,
`adminNotes = []`, `pricing.currency = "INR"`).  `rid` is the generated
`requestId` (`"REQ-" + Date.now() + "-" + random suffix`), passed in
because clock and randomness are inputs here. -/
def newServiceRequest (rid : String) (sp : SelectionPath)
    (rt : Option String) (ci : ClientInfo) (reqs : String) : ServiceRequest :=
  { requestId := rid, selectionPath := sp, requestType := rt,
    clientInfo := ci, requirements := reqs }

/-- The instance method `serviceRequestSchema.methods.updateStatus`:
sets `status = newStatus` and, when `adminNote` is truthy (present and
non-empty), pushes `{note: adminNote, addedBy: "Admin", addedAt: now}`. -/
def ServiceRequest.updateStatus (r : ServiceRequest) (newStatus : String)
    (adminNote : Option String) (now : Nat) : ServiceRequest :=
  let r1 := { r with status := newStatus }
  match adminNote with
  | some note =>
      if note ≠ "" then
        { r1 with adminNotes := r1.adminNotes ++ [⟨note, "Admin", now⟩] }
      else r1
  | none => r1

/-- A catalog entity as far as the lifecycle engine sees it: populate
selects `title`/`slug`; `isActive` exists on the entity but is never
consulted by the request controller. -/
structure CatalogEntry where
  title : String
  slug : String
  isActive : Bool
deriving Repr, DecidableEq

/-- The Catalog Store: the four referenced collections, keyed by id. -/
structure Catalog where
  categories : List (Nat × CatalogEntry) := []
  services : List (Nat × CatalogEntry) := []
  templates : List (Nat × CatalogEntry) := []
  combos : List (Nat × CatalogEntry) := []
deriving Repr, DecidableEq

/-- The populated form of a catalog reference (`select: "title slug"`). -/
structure CatalogRef where
  title : String
  slug : String
deriving Repr, DecidableEq

/-- Key lookup in an id-keyed collection (Mongo `findById`): the first
binding of the key, if any. -/
def lookupId {β : Type} (k : Nat) : List (Nat × β) → Option β
  | [] => none
  | (k', b) :: rest => if k = k' then some b else lookupId k rest

/-- `populate` of one reference: a present id resolves to the referenced
entity's title/slug, or to `none` (JS `null`) when no such entity
exists; an absent id stays absent. -/
def populateRef (coll : List (Nat × CatalogEntry)) (id : Option Nat) :
    Option CatalogRef :=
  id.bind fun i => (lookupId i coll).map fun e => ⟨e.title, e.slug⟩

/-- `selectionPath` after the four `populate` calls of `createRequest`. -/
structure PopulatedSelection where
  selectedCategory : Option CatalogRef
  selectedService : Option CatalogRef
  selectedTemplate : Option CatalogRef
  selectedCombo : Option CatalogRef
deriving Repr, DecidableEq

/-- The response document of `createRequest`: the saved document with its
selection path populated (title/slug). -/
structure PopulatedRequest where
  requestId : String
  selectionPath : PopulatedSelection
  requestType : Option String
  clientInfo : ClientInfo
  requirements : String
  status : String
  priority : String
  adminNotes : List AdminNote
  assignedTo : Option String
deriving Repr, DecidableEq

/-- Apply the four `populate([...selectionPath..., select: "title slug"])`
calls of `createRequest` to a saved document. -/
def populateDoc (cat : Catalog) (r : ServiceRequest) : PopulatedRequest :=
  { requestId := r.requestId,
    selectionPath :=
      { selectedCategory := populateRef cat.categories r.selectionPath.selectedCategory,
        selectedService := populateRef cat.services r.selectionPath.selectedService,
        selectedTemplate := populateRef cat.templates r.selectionPath.selectedTemplate,
        selectedCombo := populateRef cat.combos r.selectionPath.selectedCombo },
    requestType := r.requestType,
    clientInfo := r.clientInfo,
    requirements := r.requirements,
    status := r.status,
    priority := r.priority,
    adminNotes := r.adminNotes,
    assignedTo := r.assignedTo }

/-- The request store: internal storage key (Mongo `_id`) ↦ document. -/
abbrev Store : Type := List (Nat × ServiceRequest)

/-- `findById` / the find phase of `findByIdAndUpdate`. -/
def findById (store : Store) (id : Nat) : Option ServiceRequest :=
  lookupId id store

/-- Write back the updated document under its storage key (the update
phase of `save` on a fetched document / `findByIdAndUpdate`). -/
def setById (store : Store) (id : Nat) (r : ServiceRequest) : Store :=
  match store with
  | [] => []
  | (k, v) :: rest =>
      (if k = id then (k, r) else (k, v)) :: setById rest id r

/-- One invocation of `sendStatusUpdateEmail(email, name, requestId,
status, adminNote)` on the Notification Gateway. -/
structure EmailCall where
  email : String
  name : String
  requestId : String
  status : String
  adminNote : Option String
deriving Repr, DecidableEq

/-- What the Notification Gateway does when invoked: resolve
`{success: true}`, resolve `{success: false, error}`, or reject
(throw). -/
inductive EmailOutcome where
  | ok
  | fail
  | thrown
deriving Repr, DecidableEq

/-- Result of one handler invocation: the store afterwards, the HTTP
status code, the `success`/`message` fields of the JSON body, the `data`
payload when one is sent, and the gateway invocations performed. -/
structure HandlerResult (α : Type) where
  store : Store
  statusCode : Nat
  success : Bool
  message : String
  body : Option α
  emailCalls : List EmailCall
deriving Repr, DecidableEq

/-- The request body of `POST /service-requests`. -/
structure CreateBody where
  selectionPath : Option SelectionPath
  requestType : Option String
  clientInfo : Option ClientInfo
  requirements : String
deriving Repr, DecidableEq

/-- A missing `selectionPath` subdocument leaves every selection field
unset, and a missing `clientInfo` leaves every client field at the empty
string (both then fail the schema's `required` validators at save). -/
def emptySelection : SelectionPath := ⟨none, none, none, none⟩

def emptyClient : ClientInfo := ⟨"", "", "", none, none⟩

/-- The save-and-respond tail of `createRequest`: builds the new
document (`new ServiceRequest({selectionPath, requestType, clientInfo,
requirements})`), saves it — schema validation may reject the save,
which the handler's `catch` turns into the 500 response — and on
success responds 201 with the populated document appended to the store
under the storage key `nextId` that Mongo assigns. -/
def createSave (cat : Catalog) (store : Store) (nextId : Nat)
    (rid : String) (body : CreateBody) : HandlerResult PopulatedRequest :=
  let doc := newServiceRequest rid (body.selectionPath.getD emptySelection)
    body.requestType (body.clientInfo.getD emptyClient) body.requirements
  if validateDoc doc then
    { store := store ++ [(nextId, doc)], statusCode := 201, success := true,
      message := "Service request submitted successfully",
      body := some (populateDoc cat doc), emailCalls := [] }
  else
    { store := store, statusCode := 500, success := false,
      message := "Failed to submit service request",
      body := none, emailCalls := [] }

/-- The 500 response of `createRequest`'s `catch` block (reached, for
example, when the handler throws reading a field of an absent
`selectionPath`). -/
def createError (store : Store) : HandlerResult PopulatedRequest :=
  { store := store, statusCode := 500, success := false,
    message := "Failed to submit service request",
    body := none, emailCalls := [] }

/-- `createRequest`: mirrors the JS `if (requestType === "service") ...
else if (requestType === "combo") ...` chain — a presence-only check of
the selection path (no catalog lookup of any kind), then the save tail.
When `requestType` is `"service"`/`"combo"` but `selectionPath` is
absent, the JS handler throws reading `selectionPath.selectedCategory`
(resp. `.selectedCombo`) and the `catch` yields the 500 response. -/
def createRequest (cat : Catalog) (store : Store) (nextId : Nat)
    (rid : String) (body : CreateBody) : HandlerResult PopulatedRequest :=
  if body.requestType = some "service" then
    match body.selectionPath with
    | none => createError store
    | some sp =>
        if sp.selectedCategory.isNone || sp.selectedService.isNone then
          { store := store, statusCode := 400, success := false,
            message := "Category and Service selection is required for service requests",
            body := none, emailCalls := [] }
        else createSave cat store nextId rid body
  else if body.requestType = some "combo" then
    match body.selectionPath with
    | none => createError store
    | some sp =>
        if sp.selectedCombo.isNone then
          { store := store, statusCode := 400, success := false,
            message := "Combo selection is required for combo requests",
            body := none, emailCalls := [] }
        else createSave cat store nextId rid body
  else createSave cat store nextId rid body

/-- `updateRequestStatus` (`PUT /admin/:id/status`): rejects a status
outside `validStatuses` with 400 (a missing `status` is not in the list
either), 404 when the request does not exist, then runs the schema
method `updateStatus` (whose `save()` re-validates the document; a
validation rejection is caught and becomes the 500 response), then —
only if the status actually changed — invokes the Notification Gateway
inside its own `try`/`catch`, so that every gateway outcome (`ok`,
`fail`, `thrown`) leaves the 200 response and the saved state intact. -/
def updateRequestStatus (store : Store) (id : Nat) (status : Option String)
    (adminNote : Option String) (outcome : EmailOutcome) (now : Nat) :
    HandlerResult ServiceRequest :=
  match status with
  | none =>
      { store := store, statusCode := 400, success := false,
        message := "Invalid status provided", body := none, emailCalls := [] }
  | some st =>
      if !validStatuses.contains st then
        { store := store, statusCode := 400, success := false,
          message := "Invalid status provided", body := none, emailCalls := [] }
      else
        match findById store id with
        | none =>
            { store := store, statusCode := 404, success := false,
              message := "Service request not found", body := none,
              emailCalls := [] }
        | some r =>
            let oldStatus := r.status
            let r' := r.updateStatus st adminNote now
            if !validateDoc r' then
              { store := store, statusCode := 500, success := false,
                message := "Failed to update request status", body := none,
                emailCalls := [] }
            else
              let calls :=
                if oldStatus ≠ st then
                  [⟨r'.clientInfo.email, r'.clientInfo.fullName,
                    r'.requestId, st, adminNote⟩]
                else []
              -- `outcome` is never consulted: the inner try/catch makes
              -- every gateway outcome observationally identical (only
              -- the logging differs)
              { store := setById store id r', statusCode := 200,
                success := true,
                message := "Request status updated successfully",
                body := some r', emailCalls := calls }

/-- `updateRequestPriority` (`PUT /admin/:id/priority`): rejects a
priority outside `validPriorities` with 400 (a missing one included),
404 when absent, else `findByIdAndUpdate(id, {priority}, {new: true,
runValidators: true})` — which validates only the updated path, already
known to be in the enum. -/
def updateRequestPriority (store : Store) (id : Nat)
    (priority : Option String) : HandlerResult ServiceRequest :=
  match priority with
  | none =>
      { store := store, statusCode := 400, success := false,
        message := "Invalid priority provided", body := none, emailCalls := [] }
  | some p =>
      if !validPriorities.contains p then
        { store := store, statusCode := 400, success := false,
          message := "Invalid priority provided", body := none, emailCalls := [] }
      else
        match findById store id with
        | none =>
            { store := store, statusCode := 404, success := false,
              message := "Service request not found", body := none,
              emailCalls := [] }
        | some r =>
            let r' := { r with priority := p }
            { store := setById store id r', statusCode := 200, success := true,
              message := "Request priority updated successfully",
              body := some r', emailCalls := [] }

/-- `addAdminNote` (`POST /admin/:id/notes`): `if (!note)` rejects a
missing or empty note with 400, 404 when the request is absent, else
pushes `{note, addedBy}` (with `addedBy` defaulting to `"Admin"`) and
saves — the schema constrains no admin-note path, but `save()` still
re-validates the document, so an invalid stored document would surface
as the caught 500. -/
def addAdminNote (store : Store) (id : Nat) (note : Option String)
    (addedBy : Option String) (now : Nat) : HandlerResult ServiceRequest :=
  match note with
  | none =>
      { store := store, statusCode := 400, success := false,
        message := "Note is required", body := none, emailCalls := [] }
  | some n =>
      if n = "" then
        { store := store, statusCode := 400, success := false,
          message := "Note is required", body := none, emailCalls := [] }
      else
        match findById store id with
        | none =>
            { store := store, statusCode := 404, success := false,
              message := "Service request not found", body := none,
              emailCalls := [] }
        | some r =>
            let r' := { r with
              adminNotes := r.adminNotes ++ [⟨n, addedBy.getD "Admin", now⟩] }
            if validateDoc r' then
              { store := setById store id r', statusCode := 200,
                success := true, message := "Admin note added successfully",
                body := some r', emailCalls := [] }
            else
              { store := store, statusCode := 500, success := false,
                message := "Failed to add admin note", body := none,
                emailCalls := [] }

/-- `assignRequest` (`PUT /admin/:id/assign`): `if (!assignedTo)` rejects
a missing or empty assignee with 400, else
`findByIdAndUpdate(id, {assignedTo}, ...)`. -/
def assignRequest (store : Store) (id : Nat) (assignedTo : Option String) :
    HandlerResult ServiceRequest :=
  match assignedTo with
  | none =>
      { store := store, statusCode := 400, success := false,
        message := "Assignee name is required", body := none, emailCalls := [] }
  | some a =>
      if a = "" then
        { store := store, statusCode := 400, success := false,
          message := "Assignee name is required", body := none, emailCalls := [] }
      else
        match findById store id with
        | none =>
            { store := store, statusCode := 404, success := false,
              message := "Service request not found", body := none,
              emailCalls := [] }
        | some r =>
            let r' := { r with assignedTo := some a }
            { store := setById store id r', statusCode := 200, success := true,
              message := "Request assigned successfully",
              body := some r', emailCalls := [] }

/-- `deleteRequest` (`DELETE /admin/:id`, the soft delete):
`findByIdAndUpdate(id, {status: "cancelled"}, {new: true})` (no
validators), 404 when absent, then — unconditionally, with no check of
the prior status — invokes `sendStatusUpdateEmail(..., "cancelled")`
inside its own `try`/`catch` and responds 200. -/
def deleteRequest (store : Store) (id : Nat) (outcome : EmailOutcome) :
    HandlerResult ServiceRequest :=
  match findById store id with
  | none =>
      { store := store, statusCode := 404, success := false,
        message := "Service request not found", body := none, emailCalls := [] }
  | some r =>
      let r' := { r with status := "cancelled" }
      let calls : List EmailCall :=
        [⟨r'.clientInfo.email, r'.clientInfo.fullName, r'.requestId,
          "cancelled", none⟩]
      -- `outcome` is never consulted: the try/catch around the gateway
      -- call makes every outcome observationally identical
      { store := setById store id r', statusCode := 200, success := true,
        message := "Service request cancelled successfully",
        body := some r', emailCalls := calls }

/-- The response document of the public tracking endpoint: populated
with `title` only and with `.select("-adminNotes")` applied — the
structure has no admin-notes field at all. -/
structure TrackedRequest where
  requestId : String
  selectedCategory : Option String
  selectedService : Option String
  selectedTemplate : Option String
  selectedCombo : Option String
  requestType : Option String
  clientInfo : ClientInfo
  requirements : String
  status : String
  priority : String
  estimatedDelivery : Option Nat
  actualDelivery : Option Nat
  assignedTo : Option String
  pricing : Pricing
  deliverables : List Deliverable
deriving Repr, DecidableEq

/-- The projection applied by `getRequestByRequestId`: populate each
reference to its `title`, keep every other stored field, drop
`adminNotes`. -/
def toTracked (cat : Catalog) (r : ServiceRequest) : TrackedRequest :=
  { requestId := r.requestId,
    selectedCategory := (populateRef cat.categories r.selectionPath.selectedCategory).map CatalogRef.title,
    selectedService := (populateRef cat.services r.selectionPath.selectedService).map CatalogRef.title,
    selectedTemplate := (populateRef cat.templates r.selectionPath.selectedTemplate).map CatalogRef.title,
    selectedCombo := (populateRef cat.combos r.selectionPath.selectedCombo).map CatalogRef.title,
    requestType := r.requestType,
    clientInfo := r.clientInfo,
    requirements := r.requirements,
    status := r.status,
    priority := r.priority,
    estimatedDelivery := r.estimatedDelivery,
    actualDelivery := r.actualDelivery,
    assignedTo := r.assignedTo,
    pricing := r.pricing,
    deliverables := r.deliverables }

/-- `getRequestByRequestId` (`GET /track/:requestId`, public):
`findOne({requestId})` — the lookup key is the public `requestId` field,
the internal storage key plays no part — then the client-safe
projection.  The success response carries no `message` field. -/
def getRequestByRequestId (cat : Catalog) (store : Store) (rid : String) :
    HandlerResult TrackedRequest :=
  match store.find? (fun p => p.2.requestId == rid) with
  | none =>
      { store := store, statusCode := 404, success := false,
        message := "Service request not found", body := none, emailCalls := [] }
  | some p =>
      { store := store, statusCode := 200, success := true, message := "",
        body := some (toTracked cat p.2), emailCalls := [] }

/-- An incoming HTTP request as the auth middleware sees it: only the
`Authorization` header matters here. -/
structure HttpRequest where
  authorization : Option String
deriving Repr, DecidableEq

/-- What a middleware does with a request: hand it to the next handler,
or reject it with a status and message. -/
inductive MiddlewareOutcome where
  | next
  | reject (statusCode : Nat) (message : String)
deriving Repr, DecidableEq

/-- The `isAdmin` middleware guarding every admin service-request route
(`GET /admin`, `GET /admin/dashboard-stats`, `GET /admin/status/:status`,
`GET /admin/:id`, `PUT /admin/:id/status`, `PUT /admin/:id/priority`,
`POST /admin/:id/notes`, `PUT /admin/:id/assign`, `DELETE /admin/:id`,
`POST /admin/:id/send-email`, `GET /admin/recent/:limit?`): it calls
`next()` unconditionally — the body is only the comment "For now, just
pass through / TODO: Implement proper authentication". -/
def isAdmin (req : HttpRequest) : MiddlewareOutcome :=
  match req with
  | _ => .next

/-! ### Helper lemmas -/

/-- Looking a key up after `setById` yields the written document when the
key was present, and is untouched on every other key. -/
theorem lookupId_setById (store : Store) (id : Nat) (v : ServiceRequest)
    (k : Nat) :
    lookupId k (setById store id v) =
      if k = id then (lookupId id store).map (fun _ => v)
      else lookupId k store := by
  induction store with
  | nil => by_cases h : k = id <;> simp [setById, lookupId, h]
  | cons p rest ih =>
      obtain ⟨k', r'⟩ := p
      rw [setById]
      by_cases h1 : k' = id
      · rw [if_pos h1]
        subst h1
        by_cases h2 : k = k'
        · subst h2
          simp [lookupId]
        · rw [lookupId, if_neg h2, ih]
          simp [h2, lookupId]
      · rw [if_neg h1]
        by_cases h2 : k = k'
        · subst h2
          have h3 : ¬k = id := fun h => h1 h
          simp [lookupId, h3]
        · rw [lookupId, if_neg h2, ih]
          have h1' : ¬id = k' := fun h => h1 h.symm
          by_cases h3 : k = id
          · simp [h3, lookupId, h1']
          · simp [h3, lookupId, h2]

/-- Appending documents with fresh keys does not change the result of
looking up a key that is already bound. -/
theorem lookupId_append_of_some (store l : Store) (k : Nat)
    (r : ServiceRequest) (h : lookupId k store = some r) :
    lookupId k (store ++ l) = some r := by
  induction store with
  | nil => simp [lookupId] at h
  | cons p rest ih =>
      obtain ⟨k', r'⟩ := p
      by_cases h2 : k = k'
      · simp [lookupId, h2] at h ⊢
        exact h
      · simp [lookupId, h2] at h ⊢
        exact ih h

/-- `updateStatus` only rewrites `status` and appends to `adminNotes`;
every path that `validateDoc` inspects except `status` is untouched, so
the updated document revalidates whenever the new status is in the
enum. -/
theorem validateDoc_updateStatus (r : ServiceRequest) (st : String)
    (note : Option String) (now : Nat)
    (hval : validateDoc r = true) (hst : validStatuses.contains st = true) :
    validateDoc (r.updateStatus st note now) = true := by
  have hgoal : validateDoc { r with status := st } = true := by
    simp only [validateDoc, Bool.and_eq_true] at hval ⊢
    obtain ⟨⟨⟨⟨⟨⟨⟨⟨⟨h1, h2⟩, h3⟩, h4⟩, _⟩, h6⟩, h7⟩, h8⟩, h9⟩, h10⟩ := hval
    exact ⟨⟨⟨⟨⟨⟨⟨⟨⟨h1, h2⟩, h3⟩, h4⟩, hst⟩, h6⟩, h7⟩, h8⟩, h9⟩, h10⟩
  unfold ServiceRequest.updateStatus
  match note with
  | none => exact hgoal
  | some n =>
      by_cases hn : n = ""
      · simp only [hn, ite_false, reduceIte]
        exact hgoal
      · simp only [if_pos hn]
        simp only [validateDoc, Bool.and_eq_true] at hgoal ⊢
        exact hgoal

/-- A document that passes `validateDoc` has its status in the enum. -/
theorem status_valid_of_validateDoc (r : ServiceRequest)
    (hval : validateDoc r = true) : validStatuses.contains r.status = true := by
  simp only [validateDoc, Bool.and_eq_true] at hval
  exact hval.1.1.1.1.1.2

/-! ### Sample data used by witnesses and counterexamples -/

/-- A well-formed client (Scenario A of the spec). -/
def sampleClient : ClientInfo :=
  { fullName := "Jane Doe", email := "jane@x.com", phone := "9876543210" }

/-- A stored service-type request with the given status. -/
def sampleWith (st : String) : ServiceRequest :=
  { requestId := "REQ-1700000000000-AB12",
    selectionPath := ⟨some 1, some 2, none, none⟩,
    requestType := some "service",
    clientInfo := sampleClient,
    requirements := "logo design",
    status := st }

/-- A well-formed service-type creation body pointing at catalog ids 1
(category) and 2 (service). -/
def serviceBody : CreateBody :=
  { selectionPath := some ⟨some 1, some 2, none, none⟩,
    requestType := some "service",
    clientInfo := some sampleClient,
    requirements := "logo design" }

/-- A combo-type creation body with the combo selection omitted
(Scenario B of the spec). -/
def comboBodyMissing : CreateBody :=
  { selectionPath := some ⟨some 1, none, none, none⟩,
    requestType := some "combo",
    clientInfo := some sampleClient,
    requirements := "combo branding" }

/-- A creation body whose request type is outside the schema enum. -/
def bananaBody : CreateBody :=
  { selectionPath := some ⟨some 1, some 2, none, none⟩,
    requestType := some "banana",
    clientInfo := some sampleClient,
    requirements := "logo design" }

/-- A catalog containing the category and service that `serviceBody`
references. -/
def sampleCatalog : Catalog :=
  { categories := [(1, ⟨"Logo Design", "logo-design", true⟩)],
    services := [(2, ⟨"Premium Logo", "premium-logo", true⟩)] }

/-- `createSave` performs no Notification Gateway call on either of its
branches. -/
theorem createSave_emailCalls (cat : Catalog) (store : Store) (nextId : Nat)
    (rid : String) (body : CreateBody) :
    (createSave cat store nextId rid body).emailCalls = [] := by
  unfold createSave
  by_cases hv : validateDoc (newServiceRequest rid
      (body.selectionPath.getD emptySelection) body.requestType
      (body.clientInfo.getD emptyClient) body.requirements) = true
  · simp [hv]
  · simp only [Bool.not_eq_true] at hv
    simp [hv]

/-- When `createSave` answers 201 the new document was appended under
the fresh key with the schema defaults and the response carries its
populated form. -/
theorem createSave_201 (cat : Catalog) (store : Store) (nextId : Nat)
    (rid : String) (body : CreateBody)
    (h : (createSave cat store nextId rid body).statusCode = 201) :
    ∃ doc, (createSave cat store nextId rid body).store =
        store ++ [(nextId, doc)] ∧
      doc.status = "submitted" ∧ doc.adminNotes = [] ∧
      doc.priority = "medium" ∧
      (createSave cat store nextId rid body).success = true ∧
      (createSave cat store nextId rid body).body =
        some (populateDoc cat doc) := by
  unfold createSave at h ⊢
  by_cases hv : validateDoc (newServiceRequest rid
      (body.selectionPath.getD emptySelection) body.requestType
      (body.clientInfo.getD emptyClient) body.requirements) = true
  · exact ⟨newServiceRequest rid (body.selectionPath.getD emptySelection)
      body.requestType (body.clientInfo.getD emptyClient) body.requirements,
      by simp [hv], rfl, rfl, rfl, by simp [hv], by simp [hv]⟩
  · simp only [Bool.not_eq_true] at hv
    simp [hv] at h

/-- The store and status code of `createSave` are independent of the
catalog (the catalog enters only through `populate` in the response
body). -/
theorem createSave_catalog_independent (cat cat' : Catalog) (store : Store)
    (nextId : Nat) (rid : String) (body : CreateBody) :
    (createSave cat store nextId rid body).statusCode =
      (createSave cat' store nextId rid body).statusCode ∧
    (createSave cat store nextId rid body).store =
      (createSave cat' store nextId rid body).store := by
  unfold createSave
  by_cases hv : validateDoc (newServiceRequest rid
      (body.selectionPath.getD emptySelection) body.requestType
      (body.clientInfo.getD emptyClient) body.requirements) = true
  · simp [hv]
  · simp only [Bool.not_eq_true] at hv
    simp [hv]

/-- Unfolding `createRequest` on a service-type body with a present
selection path. -/
theorem createRequest_service_eq (cat : Catalog) (store : Store)
    (nextId : Nat) (rid : String) (body : CreateBody) (sp : SelectionPath)
    (h1 : body.requestType = some "service")
    (hsp : body.selectionPath = some sp) :
    createRequest cat store nextId rid body =
      (if (sp.selectedCategory.isNone || sp.selectedService.isNone) = true then
        { store := store, statusCode := 400, success := false,
          message := "Category and Service selection is required for service requests",
          body := none, emailCalls := [] }
      else createSave cat store nextId rid body) := by
  unfold createRequest
  rw [if_pos h1, hsp]

/-- Unfolding `createRequest` on a service-type body with an absent
selection path (the handler throws and the catch answers 500). -/
theorem createRequest_service_nosel_eq (cat : Catalog) (store : Store)
    (nextId : Nat) (rid : String) (body : CreateBody)
    (h1 : body.requestType = some "service")
    (hsp : body.selectionPath = none) :
    createRequest cat store nextId rid body = createError store := by
  unfold createRequest
  rw [if_pos h1, hsp]

/-- Unfolding `createRequest` on a combo-type body with a present
selection path. -/
theorem createRequest_combo_eq (cat : Catalog) (store : Store)
    (nextId : Nat) (rid : String) (body : CreateBody) (sp : SelectionPath)
    (h1 : body.requestType ≠ some "service")
    (h2 : body.requestType = some "combo")
    (hsp : body.selectionPath = some sp) :
    createRequest cat store nextId rid body =
      (if sp.selectedCombo.isNone = true then
        { store := store, statusCode := 400, success := false,
          message := "Combo selection is required for combo requests",
          body := none, emailCalls := [] }
      else createSave cat store nextId rid body) := by
  unfold createRequest
  rw [if_neg h1, if_pos h2, hsp]

/-- Unfolding `createRequest` on a combo-type body with an absent
selection path. -/
theorem createRequest_combo_nosel_eq (cat : Catalog) (store : Store)
    (nextId : Nat) (rid : String) (body : CreateBody)
    (h1 : body.requestType ≠ some "service")
    (h2 : body.requestType = some "combo")
    (hsp : body.selectionPath = none) :
    createRequest cat store nextId rid body = createError store := by
  unfold createRequest
  rw [if_neg h1, if_pos h2, hsp]

/-- Unfolding `createRequest` on a body whose request type is neither
`"service"` nor `"combo"`: both validation branches are skipped. -/
theorem createRequest_other_eq (cat : Catalog) (store : Store)
    (nextId : Nat) (rid : String) (body : CreateBody)
    (h1 : body.requestType ≠ some "service")
    (h2 : body.requestType ≠ some "combo") :
    createRequest cat store nextId rid body =
      createSave cat store nextId rid body := by
  unfold createRequest
  rw [if_neg h1, if_neg h2]

/-! ### Claim theorems -/

/-- Core behaviour of `updateRequestStatus` on an existing valid request
with an in-enum status: 200, success, updated body, persisted change,
and a result independent of the gateway outcome. -/
theorem updateRequestStatus_spec (store : Store) (id : Nat)
    (r : ServiceRequest) (st : String) (note : Option String) (now : Nat)
    (outcome : EmailOutcome)
    (hfind : findById store id = some r)
    (hval : validateDoc r = true)
    (hst : validStatuses.contains st = true) :
    (updateRequestStatus store id (some st) note outcome now).statusCode = 200 ∧
    (updateRequestStatus store id (some st) note outcome now).success = true ∧
    (updateRequestStatus store id (some st) note outcome now).body =
      some (r.updateStatus st note now) ∧
    findById (updateRequestStatus store id (some st) note outcome now).store id =
      some (r.updateStatus st note now) ∧
    updateRequestStatus store id (some st) note outcome now =
      updateRequestStatus store id (some st) note EmailOutcome.ok now := by
  have hval' := validateDoc_updateStatus r st note now hval hst
  have hset := lookupId_setById store id (r.updateStatus st note now) id
  unfold findById at hfind
  simp only [updateRequestStatus, hst, Bool.not_true, Bool.false_eq_true,
    if_false, findById, hfind, hval', lookupId_setById, if_pos rfl,
    Option.map_some]
  exact ⟨trivial, trivial, trivial, by simp, trivial⟩

/-- C1: for every `updateRequestStatus` call on an existing request with
a valid new status, the handler responds 200 with the updated request
and the status change is persisted in the store, and this holds whatever
the Notification Gateway does (`ok`, `fail` or `thrown` are
observationally identical — the gateway failure is only logged inside
the handler's try/catch, never propagated or rolled back). -/
theorem transition_notification_isolation (store : Store) (id : Nat)
    (r : ServiceRequest) (st : String) (note : Option String) (now : Nat)
    (outcome : EmailOutcome)
    (hfind : findById store id = some r)
    (hval : validateDoc r = true)
    (hst : validStatuses.contains st = true) :
    (updateRequestStatus store id (some st) note outcome now).statusCode = 200 ∧
    (updateRequestStatus store id (some st) note outcome now).success = true ∧
    (updateRequestStatus store id (some st) note outcome now).body =
      some (r.updateStatus st note now) ∧
    findById (updateRequestStatus store id (some st) note outcome now).store id =
      some (r.updateStatus st note now) ∧
    updateRequestStatus store id (some st) note outcome now =
      updateRequestStatus store id (some st) note EmailOutcome.ok now :=
  updateRequestStatus_spec store id r st note now outcome hfind hval hst

/-- C1 witness: a concrete transition of a stored request from
`submitted` to `reviewing` under a throwing gateway still yields 200
with the change persisted, identical to the successful-gateway run. -/
theorem transition_notification_isolation_witness :
    (updateRequestStatus [(0, sampleWith "submitted")] 0 (some "reviewing")
        (some "Looks good") EmailOutcome.thrown 5).statusCode = 200 ∧
    (updateRequestStatus [(0, sampleWith "submitted")] 0 (some "reviewing")
        (some "Looks good") EmailOutcome.thrown 5).success = true ∧
    (updateRequestStatus [(0, sampleWith "submitted")] 0 (some "reviewing")
        (some "Looks good") EmailOutcome.thrown 5).body =
      some ((sampleWith "submitted").updateStatus "reviewing"
        (some "Looks good") 5) ∧
    findById (updateRequestStatus [(0, sampleWith "submitted")] 0
        (some "reviewing") (some "Looks good") EmailOutcome.thrown 5).store 0 =
      some ((sampleWith "submitted").updateStatus "reviewing"
        (some "Looks good") 5) ∧
    updateRequestStatus [(0, sampleWith "submitted")] 0 (some "reviewing")
        (some "Looks good") EmailOutcome.thrown 5 =
      updateRequestStatus [(0, sampleWith "submitted")] 0 (some "reviewing")
        (some "Looks good") EmailOutcome.ok 5 :=
  transition_notification_isolation [(0, sampleWith "submitted")] 0
    (sampleWith "submitted") "reviewing" (some "Looks good") 5
    EmailOutcome.thrown (by decide) (by decide) (by decide)

/-- C3: `updateRequestStatus` answers 400 ("Invalid status provided")
exactly when the supplied status is not one of the seven enum values
(a missing status included), and for an existing valid stored request
any of the seven values is accepted with a 200 and the persisted status
set to it — no transition graph beyond enum membership. -/
theorem transition_enum_membership_only (store : Store) (id : Nat)
    (status : Option String) (note : Option String) (outcome : EmailOutcome)
    (now : Nat) :
    ((updateRequestStatus store id status note outcome now).statusCode = 400 ↔
      status.any (fun s => validStatuses.contains s) = false) ∧
    (∀ r newStatus, findById store id = some r → validateDoc r = true →
      validStatuses.contains newStatus = true →
      (updateRequestStatus store id (some newStatus) note outcome now).statusCode
          = 200 ∧
      findById (updateRequestStatus store id (some newStatus) note outcome
          now).store id = some (r.updateStatus newStatus note now)) := by
  constructor
  · match status with
    | none => simp [updateRequestStatus]
    | some s =>
        by_cases hc : validStatuses.contains s = true
        · have hmem : s ∈ validStatuses := by simpa using hc
          simp only [updateRequestStatus, hc, Bool.not_true,
            Bool.false_eq_true, if_false]
          cases hr : findById store id with
          | none => simp [hc, hmem]
          | some r =>
              by_cases hv : validateDoc (r.updateStatus s note now) = false
              · simp [hv, hc, hmem]
              · simp only [Bool.not_eq_false] at hv
                simp [hv, hc, hmem]
        · simp only [Bool.not_eq_true] at hc
          have hnm : s ∉ validStatuses := by simpa using hc
          simp [updateRequestStatus, hc, hnm]
  · intro r newStatus hfind hval hst
    have h := updateRequestStatus_spec store id r newStatus note now
      outcome hfind hval hst
    exact ⟨h.1, h.2.2.2.1⟩

/-- C3 witness: `"banana"` is rejected with 400, while the reverse
transition `completed → submitted` (forbidden by no rule) succeeds with
200 and is persisted. -/
theorem transition_enum_membership_only_witness :
    ((updateRequestStatus [(0, sampleWith "completed")] 0 (some "banana")
        none EmailOutcome.ok 0).statusCode = 400 ↔
      (some "banana").any (fun s => validStatuses.contains s) = false) ∧
    ((updateRequestStatus [(0, sampleWith "completed")] 0 (some "submitted")
        none EmailOutcome.ok 0).statusCode = 200 ∧
      findById (updateRequestStatus [(0, sampleWith "completed")] 0
          (some "submitted") none EmailOutcome.ok 0).store 0 =
        some ((sampleWith "completed").updateStatus "submitted" none 0)) :=
  ⟨(transition_enum_membership_only [(0, sampleWith "completed")] 0
      (some "banana") none EmailOutcome.ok 0).1,
   (transition_enum_membership_only [(0, sampleWith "completed")] 0
      (some "submitted") none EmailOutcome.ok 0).2
     (sampleWith "completed") "submitted" (by decide) (by decide) (by decide)⟩

/-- C4: transitioning an existing request to its current status succeeds
with 200 and performs no Notification Gateway call, and conversely a
gateway call is only ever performed when the new status differs from the
prior one. -/
theorem noop_transition_no_notification (store : Store) (id : Nat)
    (r : ServiceRequest) (note : Option String) (outcome : EmailOutcome)
    (now : Nat)
    (hfind : findById store id = some r) (hval : validateDoc r = true) :
    (updateRequestStatus store id (some r.status) note outcome now).statusCode
        = 200 ∧
    (updateRequestStatus store id (some r.status) note outcome now).success
        = true ∧
    (updateRequestStatus store id (some r.status) note outcome now).emailCalls
        = [] ∧
    (∀ st, (updateRequestStatus store id (some st) note outcome
        now).emailCalls ≠ [] → st ≠ r.status) := by
  have hst := status_valid_of_validateDoc r hval
  have h := updateRequestStatus_spec store id r r.status note now
    outcome hfind hval hst
  have hval' := validateDoc_updateStatus r r.status note now hval hst
  have hmem : r.status ∈ validStatuses := by simpa using hst
  have hfind' := hfind
  unfold findById at hfind'
  have hmain : (updateRequestStatus store id (some r.status) note outcome
      now).emailCalls = [] := by
    simp [updateRequestStatus, findById, hfind', hval', hmem]
  refine ⟨h.1, h.2.1, hmain, ?_⟩
  intro st hcalls h'
  apply hcalls
  rw [h']
  exact hmain

/-- C4 witness: re-submitting the current status `reviewing` of a stored
request yields 200 and an empty list of gateway calls. -/
theorem noop_transition_no_notification_witness :
    (updateRequestStatus [(3, sampleWith "reviewing")] 3 (some "reviewing")
        none EmailOutcome.ok 7).statusCode = 200 ∧
    (updateRequestStatus [(3, sampleWith "reviewing")] 3 (some "reviewing")
        none EmailOutcome.ok 7).success = true ∧
    (updateRequestStatus [(3, sampleWith "reviewing")] 3 (some "reviewing")
        none EmailOutcome.ok 7).emailCalls = [] ∧
    (∀ st, (updateRequestStatus [(3, sampleWith "reviewing")] 3 (some st)
        none EmailOutcome.ok 7).emailCalls ≠ [] →
      st ≠ (sampleWith "reviewing").status) :=
  noop_transition_no_notification [(3, sampleWith "reviewing")] 3
    (sampleWith "reviewing") none EmailOutcome.ok 7 (by decide) (by decide)

/-- C7: every successful creation (201) appends the new document under
the fresh storage key with status `"submitted"`, empty `adminNotes` and
priority `"medium"`, and the response body is the created document with
its catalog references resolved (`populateDoc`, title/slug); moreover no
branch of creation, successful or not, ever invokes the Notification
Gateway. -/
theorem create_persists_defaults (cat : Catalog) (store : Store)
    (nextId : Nat) (rid : String) (body : CreateBody) :
    (createRequest cat store nextId rid body).emailCalls = [] ∧
    ((createRequest cat store nextId rid body).statusCode = 201 →
      ∃ doc, (createRequest cat store nextId rid body).store =
          store ++ [(nextId, doc)] ∧
        doc.status = "submitted" ∧ doc.adminNotes = [] ∧
        doc.priority = "medium" ∧
        (createRequest cat store nextId rid body).success = true ∧
        (createRequest cat store nextId rid body).body =
          some (populateDoc cat doc)) := by
  by_cases h1 : body.requestType = some "service"
  · cases hsp : body.selectionPath with
    | none =>
        rw [createRequest_service_nosel_eq cat store nextId rid body h1 hsp]
        exact ⟨rfl, by intro h; simp [createError] at h⟩
    | some sp =>
        rw [createRequest_service_eq cat store nextId rid body sp h1 hsp]
        by_cases hd : (sp.selectedCategory.isNone ||
            sp.selectedService.isNone) = true
        · rw [if_pos hd]
          exact ⟨rfl, by intro h; simp at h⟩
        · rw [if_neg hd]
          exact ⟨createSave_emailCalls cat store nextId rid body,
            createSave_201 cat store nextId rid body⟩
  · by_cases h2 : body.requestType = some "combo"
    · cases hsp : body.selectionPath with
      | none =>
          rw [createRequest_combo_nosel_eq cat store nextId rid body h1 h2 hsp]
          exact ⟨rfl, by intro h; simp [createError] at h⟩
      | some sp =>
          rw [createRequest_combo_eq cat store nextId rid body sp h1 h2 hsp]
          by_cases hd : sp.selectedCombo.isNone = true
          · rw [if_pos hd]
            exact ⟨rfl, by intro h; simp at h⟩
          · rw [if_neg hd]
            exact ⟨createSave_emailCalls cat store nextId rid body,
              createSave_201 cat store nextId rid body⟩
    · rw [createRequest_other_eq cat store nextId rid body h1 h2]
      exact ⟨createSave_emailCalls cat store nextId rid body,
        createSave_201 cat store nextId rid body⟩

/-- C7 witness: Scenario A — a concrete valid service-type creation
reaches 201 and the conclusion of `create_persists_defaults` is
realised with its defaults. -/
theorem create_persists_defaults_witness :
    ∃ doc, (createRequest sampleCatalog [] 0 "REQ-1-AB" serviceBody).store =
        [] ++ [(0, doc)] ∧
      doc.status = "submitted" ∧ doc.adminNotes = [] ∧
      doc.priority = "medium" ∧
      (createRequest sampleCatalog [] 0 "REQ-1-AB" serviceBody).success = true ∧
      (createRequest sampleCatalog [] 0 "REQ-1-AB" serviceBody).body =
        some (populateDoc sampleCatalog doc) :=
  (create_persists_defaults sampleCatalog [] 0 "REQ-1-AB" serviceBody).2
    (by decide)

/-- C10: a creation whose request type is neither `"service"` nor
`"combo"` — a missing one included — skips both selection-path branches
and is rejected only by the schema enum/required validation at save
time: the response is the 500 "Failed to submit service request", not a
400 validation response, and nothing is persisted. -/
theorem create_unknown_request_type_500 (cat : Catalog) (store : Store)
    (nextId : Nat) (rid : String) (body : CreateBody)
    (h : ∀ t, body.requestType = some t → t ≠ "service" ∧ t ≠ "combo") :
    (createRequest cat store nextId rid body).statusCode = 500 ∧
    (createRequest cat store nextId rid body).message =
      "Failed to submit service request" ∧
    (createRequest cat store nextId rid body).store = store := by
  have h1 : body.requestType ≠ some "service" := fun hc => (h _ hc).1 rfl
  have h2 : body.requestType ≠ some "combo" := fun hc => (h _ hc).2 rfl
  have hval : validateDoc (newServiceRequest rid
      (body.selectionPath.getD emptySelection) body.requestType
      (body.clientInfo.getD emptyClient) body.requirements) = false := by
    rw [Bool.eq_false_iff]
    intro hv
    simp only [validateDoc, newServiceRequest, Bool.and_eq_true] at hv
    have h4 := hv.1.1.1.1.1.1.2
    rw [Bool.or_eq_true] at h4
    rcases h4 with h4 | h4
    · exact h1 (by simpa using h4)
    · exact h2 (by simpa using h4)
  rw [createRequest_other_eq cat store nextId rid body h1 h2]
  unfold createSave
  rw [if_neg (by rw [hval]; exact Bool.false_ne_true)]
  exact ⟨rfl, rfl, rfl⟩

/-- C10 witness: `requestType = "banana"` passes both selection checks
untouched and dies at save with the 500 response; nothing persisted. -/
theorem create_unknown_request_type_500_witness :
    (createRequest sampleCatalog [] 0 "REQ-1-AB" bananaBody).statusCode = 500 ∧
    (createRequest sampleCatalog [] 0 "REQ-1-AB" bananaBody).message =
      "Failed to submit service request" ∧
    (createRequest sampleCatalog [] 0 "REQ-1-AB" bananaBody).store = [] :=
  create_unknown_request_type_500 sampleCatalog [] 0 "REQ-1-AB" bananaBody
    (by intro t ht; injection ht with h; subst h
        exact ⟨by decide, by decide⟩)

/-- C2 counterexample: with the empty catalog — ids 1 and 2 reference no
existing (let alone active) category or service — creation nevertheless
succeeds with 201 and persists the request, where the claim requires a
400 validation failure with nothing persisted. -/
theorem create_no_catalog_check_cex :
    (createRequest {} [] 0 "REQ-1-AB" serviceBody).statusCode = 201 ∧
    (createRequest {} [] 0 "REQ-1-AB" serviceBody).store ≠ [] ∧
    lookupId 1 ({} : Catalog).categories = none ∧
    lookupId 2 ({} : Catalog).services = none := by decide

/-- C2 (amended): creation validates the selection path by *presence*
only — a service request missing its category or service selection, or a
combo request missing its combo selection, is rejected with a 400 naming
the missing selection and nothing is persisted; but no existence or
active-state check against the catalog is performed: the status code and
the persisted store are entirely independent of the catalog's
contents. -/
theorem create_selection_presence_validation (cat cat' : Catalog)
    (store : Store) (nextId : Nat) (rid : String) (body : CreateBody) :
    (∀ sp, body.requestType = some "service" → body.selectionPath = some sp →
      sp.selectedCategory = none ∨ sp.selectedService = none →
      (createRequest cat store nextId rid body).statusCode = 400 ∧
      (createRequest cat store nextId rid body).store = store ∧
      (createRequest cat store nextId rid body).message =
        "Category and Service selection is required for service requests") ∧
    (∀ sp, body.requestType = some "combo" → body.selectionPath = some sp →
      sp.selectedCombo = none →
      (createRequest cat store nextId rid body).statusCode = 400 ∧
      (createRequest cat store nextId rid body).store = store ∧
      (createRequest cat store nextId rid body).message =
        "Combo selection is required for combo requests") ∧
    ((createRequest cat store nextId rid body).statusCode =
      (createRequest cat' store nextId rid body).statusCode ∧
     (createRequest cat store nextId rid body).store =
      (createRequest cat' store nextId rid body).store) := by
  refine ⟨?_, ?_, ?_⟩
  · intro sp h1 hsp hmiss
    have hd : (sp.selectedCategory.isNone || sp.selectedService.isNone) = true := by
      rcases hmiss with hm | hm <;> simp [hm]
    rw [createRequest_service_eq cat store nextId rid body sp h1 hsp, if_pos hd]
    exact ⟨rfl, rfl, rfl⟩
  · intro sp h2 hsp hmiss
    have h1 : body.requestType ≠ some "service" := by
      rw [h2]; intro hc; injection hc with hc'; exact absurd hc' (by decide)
    have hd : sp.selectedCombo.isNone = true := by simp [hmiss]
    rw [createRequest_combo_eq cat store nextId rid body sp h1 h2 hsp, if_pos hd]
    exact ⟨rfl, rfl, rfl⟩
  · by_cases h1 : body.requestType = some "service"
    · cases hsp : body.selectionPath with
      | none =>
          rw [createRequest_service_nosel_eq cat store nextId rid body h1 hsp,
            createRequest_service_nosel_eq cat' store nextId rid body h1 hsp]
          exact ⟨rfl, rfl⟩
      | some sp =>
          rw [createRequest_service_eq cat store nextId rid body sp h1 hsp,
            createRequest_service_eq cat' store nextId rid body sp h1 hsp]
          by_cases hd : (sp.selectedCategory.isNone ||
              sp.selectedService.isNone) = true
          · rw [if_pos hd, if_pos hd]
            exact ⟨rfl, rfl⟩
          · rw [if_neg hd, if_neg hd]
            exact createSave_catalog_independent cat cat' store nextId rid body
    · by_cases h2 : body.requestType = some "combo"
      · cases hsp : body.selectionPath with
        | none =>
            rw [createRequest_combo_nosel_eq cat store nextId rid body h1 h2 hsp,
              createRequest_combo_nosel_eq cat' store nextId rid body h1 h2 hsp]
            exact ⟨rfl, rfl⟩
        | some sp =>
            rw [createRequest_combo_eq cat store nextId rid body sp h1 h2 hsp,
              createRequest_combo_eq cat' store nextId rid body sp h1 h2 hsp]
            by_cases hd : sp.selectedCombo.isNone = true
            · rw [if_pos hd, if_pos hd]
              exact ⟨rfl, rfl⟩
            · rw [if_neg hd, if_neg hd]
              exact createSave_catalog_independent cat cat' store nextId rid body
      · rw [createRequest_other_eq cat store nextId rid body h1 h2,
          createRequest_other_eq cat' store nextId rid body h1 h2]
        exact createSave_catalog_independent cat cat' store nextId rid body

/-- C2 (amended) witness: Scenario B — a combo request omitting the
combo selection is rejected with the 400 naming the combo selection and
nothing persisted. -/
theorem create_selection_presence_validation_witness :
    (createRequest sampleCatalog [] 0 "REQ-1-AB" comboBodyMissing).statusCode
        = 400 ∧
    (createRequest sampleCatalog [] 0 "REQ-1-AB" comboBodyMissing).store = [] ∧
    (createRequest sampleCatalog [] 0 "REQ-1-AB" comboBodyMissing).message =
      "Combo selection is required for combo requests" :=
  (create_selection_presence_validation sampleCatalog sampleCatalog [] 0
      "REQ-1-AB" comboBodyMissing).2.1
    ⟨some 1, none, none, none⟩ (by decide) (by decide) (by decide)

/-- C5 counterexample: on a request whose status is already
`"cancelled"`, `deleteRequest` still performs a Notification Gateway
call while `updateRequestStatus` with `"cancelled"` performs none —
Cancel is not notification-equivalent to Transition(id, "cancelled"). -/
theorem cancel_equals_transition_cex :
    (deleteRequest [(0, sampleWith "cancelled")] 0 EmailOutcome.ok).emailCalls ≠
      (updateRequestStatus [(0, sampleWith "cancelled")] 0 (some "cancelled")
        none EmailOutcome.ok 0).emailCalls := by decide

/-- C5 (amended): Cancel produces exactly the persisted state of
Transition(id, "cancelled") with no note and also answers 200, but it
triggers the cancellation notification unconditionally — even when the
request was already cancelled — whereas Transition notifies only when
the status value actually changes. -/
theorem cancel_equals_transition_modulo_notification (store : Store)
    (id : Nat) (r : ServiceRequest) (outcome : EmailOutcome) (now : Nat)
    (hfind : findById store id = some r) (hval : validateDoc r = true) :
    (deleteRequest store id outcome).store =
      (updateRequestStatus store id (some "cancelled") none outcome now).store ∧
    (deleteRequest store id outcome).statusCode = 200 ∧
    (updateRequestStatus store id (some "cancelled") none outcome
        now).statusCode = 200 ∧
    (deleteRequest store id outcome).emailCalls =
      [⟨r.clientInfo.email, r.clientInfo.fullName, r.requestId,
        "cancelled", none⟩] ∧
    (updateRequestStatus store id (some "cancelled") none outcome
        now).emailCalls =
      (if r.status = "cancelled" then []
       else (deleteRequest store id outcome).emailCalls) := by
  have hst : validStatuses.contains "cancelled" = true := by decide
  have hval' := validateDoc_updateStatus r "cancelled" none now hval hst
  have hfind' := hfind
  unfold findById at hfind'
  have hupd : r.updateStatus "cancelled" none now =
      { r with status := "cancelled" } := rfl
  refine ⟨?_, ?_, ?_, ?_, ?_⟩
  · simp only [deleteRequest, updateRequestStatus, hst, Bool.not_true,
      Bool.false_eq_true, if_false, findById, hfind', hval']
    rw [hupd]
  · simp [deleteRequest, findById, hfind']
  · simp only [updateRequestStatus, hst, Bool.not_true, Bool.false_eq_true,
      if_false, findById, hfind', hval']
  · simp [deleteRequest, findById, hfind']
  · simp only [deleteRequest, updateRequestStatus, hst, Bool.not_true,
      Bool.false_eq_true, if_false, findById, hfind', hval']
    by_cases hc : r.status = "cancelled" <;>
      simp [hc, ServiceRequest.updateStatus]

/-- C5 (amended) witness: cancelling a stored in-progress request gives
the same persisted state as the corresponding transition, both answer
200, and here — the status changing — both notify. -/
theorem cancel_equals_transition_modulo_notification_witness :
    (deleteRequest [(0, sampleWith "in-progress")] 0 EmailOutcome.ok).store =
      (updateRequestStatus [(0, sampleWith "in-progress")] 0
        (some "cancelled") none EmailOutcome.ok 3).store ∧
    (deleteRequest [(0, sampleWith "in-progress")] 0
        EmailOutcome.ok).statusCode = 200 ∧
    (updateRequestStatus [(0, sampleWith "in-progress")] 0 (some "cancelled")
        none EmailOutcome.ok 3).statusCode = 200 ∧
    (deleteRequest [(0, sampleWith "in-progress")] 0 EmailOutcome.ok).emailCalls
        = [⟨(sampleWith "in-progress").clientInfo.email,
            (sampleWith "in-progress").clientInfo.fullName,
            (sampleWith "in-progress").requestId, "cancelled", none⟩] ∧
    (updateRequestStatus [(0, sampleWith "in-progress")] 0 (some "cancelled")
        none EmailOutcome.ok 3).emailCalls =
      (if (sampleWith "in-progress").status = "cancelled" then []
       else (deleteRequest [(0, sampleWith "in-progress")] 0
         EmailOutcome.ok).emailCalls) :=
  cancel_equals_transition_modulo_notification
    [(0, sampleWith "in-progress")] 0 (sampleWith "in-progress")
    EmailOutcome.ok 3 (by decide) (by decide)

/-- The tracking lookup's `findOne({requestId})` predicate sees the same
`requestId` field after internal keys are relabelled and admin notes
erased, so the search commutes with that rewriting of the store. -/
theorem find?_erase_notes (store : Store) (rid : String) (f : Nat → Nat) :
    ((store.map fun p => (f p.1, { p.2 with adminNotes := [] })).find?
        fun p => p.2.requestId == rid) =
      (store.find? fun p => p.2.requestId == rid).map
        fun p => (f p.1, { p.2 with adminNotes := [] }) := by
  induction store with
  | nil => rfl
  | cons q rest ih =>
      rw [List.map_cons]
      by_cases h : (q.2.requestId == rid) = true
      · rw [@List.find?_cons_of_pos (Nat × ServiceRequest)
            (fun p => p.2.requestId == rid)
            (f q.1, { q.2 with adminNotes := [] }) _ h,
          @List.find?_cons_of_pos (Nat × ServiceRequest)
            (fun p => p.2.requestId == rid) q _ h]
        rfl
      · rw [@List.find?_cons_of_neg (Nat × ServiceRequest)
            (fun p => p.2.requestId == rid)
            (f q.1, { q.2 with adminNotes := [] }) _ h,
          @List.find?_cons_of_neg (Nat × ServiceRequest)
            (fun p => p.2.requestId == rid) q _ h, ih]

/-- C6: the public tracking endpoint resolves by the public `requestId`
field — relabelling every internal storage key and erasing every
`adminNotes` list leaves its status code, success flag, message and
response body unchanged — and the `toTracked` projection it answers with
carries every other stored field intact (its type has no admin-notes
field at all). -/
theorem tracking_projection_safe (cat : Catalog) (store : Store)
    (rid : String) (f : Nat → Nat) :
    ((getRequestByRequestId cat
        (store.map fun p => (f p.1, { p.2 with adminNotes := [] }))
        rid).statusCode =
      (getRequestByRequestId cat store rid).statusCode ∧
     (getRequestByRequestId cat
        (store.map fun p => (f p.1, { p.2 with adminNotes := [] }))
        rid).success =
      (getRequestByRequestId cat store rid).success ∧
     (getRequestByRequestId cat
        (store.map fun p => (f p.1, { p.2 with adminNotes := [] }))
        rid).message =
      (getRequestByRequestId cat store rid).message ∧
     (getRequestByRequestId cat
        (store.map fun p => (f p.1, { p.2 with adminNotes := [] }))
        rid).body =
      (getRequestByRequestId cat store rid).body) ∧
    (∀ r : ServiceRequest,
      (toTracked cat r).requestId = r.requestId ∧
      (toTracked cat r).requestType = r.requestType ∧
      (toTracked cat r).clientInfo = r.clientInfo ∧
      (toTracked cat r).requirements = r.requirements ∧
      (toTracked cat r).status = r.status ∧
      (toTracked cat r).priority = r.priority ∧
      (toTracked cat r).estimatedDelivery = r.estimatedDelivery ∧
      (toTracked cat r).actualDelivery = r.actualDelivery ∧
      (toTracked cat r).assignedTo = r.assignedTo ∧
      (toTracked cat r).pricing = r.pricing ∧
      (toTracked cat r).deliverables = r.deliverables) := by
  constructor
  · unfold getRequestByRequestId
    rw [find?_erase_notes store rid f]
    cases hf : store.find? (fun p => p.2.requestId == rid) with
    | none => exact ⟨rfl, rfl, rfl, rfl⟩
    | some q => exact ⟨rfl, rfl, rfl, rfl⟩
  · intro r
    exact ⟨rfl, rfl, rfl, rfl, rfl, rfl, rfl, rfl, rfl, rfl, rfl⟩

/-- Whatever the optional note, `updateStatus` only ever appends to the
admin-notes audit list. -/
theorem updateStatus_notes_append (r : ServiceRequest) (st : String)
    (note : Option String) (now : Nat) :
    ∃ t, (r.updateStatus st note now).adminNotes = r.adminNotes ++ t := by
  unfold ServiceRequest.updateStatus
  cases note with
  | none => exact ⟨[], by simp⟩
  | some n =>
      by_cases hn : n = ""
      · exact ⟨[], by simp [hn]⟩
      · exact ⟨[⟨n, "Admin", now⟩], by simp [hn]⟩

/-- Writing a document whose notes extend those of the overwritten one
preserves note-extension at every key of the store. -/
theorem notes_extend_setById (store : Store) (id k : Nat)
    (r r' r₀ v : ServiceRequest)
    (hk : lookupId k store = some r) (h₀ : lookupId id store = some r₀)
    (hnotes : ∃ t, v.adminNotes = r₀.adminNotes ++ t)
    (h' : lookupId k (setById store id v) = some r') :
    ∃ t, r'.adminNotes = r.adminNotes ++ t := by
  rw [lookupId_setById] at h'
  by_cases hik : k = id
  · rw [if_pos hik] at h'
    subst hik
    rw [hk] at h₀ h'
    injection h₀ with h₀'
    have h2 : some v = some r' := h'
    injection h2 with h''
    obtain ⟨t, ht⟩ := hnotes
    exact ⟨t, by rw [← h'', ht, h₀']⟩
  · rw [if_neg hik, hk] at h'
    injection h' with h''
    exact ⟨[], by rw [← h'']; simp⟩

/-- Case analysis of the store left by `updateRequestStatus`: untouched,
or the found document rewritten through `updateStatus`. -/
theorem updateRequestStatus_store_cases (store : Store) (id : Nat)
    (status note : Option String) (outcome : EmailOutcome) (now : Nat) :
    (updateRequestStatus store id status note outcome now).store = store ∨
    ∃ r₀ st, status = some st ∧ lookupId id store = some r₀ ∧
      (updateRequestStatus store id status note outcome now).store =
        setById store id (r₀.updateStatus st note now) := by
  cases status with
  | none => exact Or.inl rfl
  | some st =>
      by_cases hc : validStatuses.contains st = true
      · cases hr : lookupId id store with
        | none =>
            left
            simp only [updateRequestStatus, hc, Bool.not_true,
              Bool.false_eq_true, if_false, findById, hr]
        | some r₀ =>
            by_cases hv : validateDoc (r₀.updateStatus st note now) = true
            · right
              refine ⟨r₀, st, rfl, rfl, ?_⟩
              simp only [updateRequestStatus, hc, Bool.not_true,
                Bool.false_eq_true, if_false, findById, hr, hv]
            · left
              simp only [Bool.not_eq_true] at hv
              simp only [updateRequestStatus, hc, Bool.not_true,
                Bool.false_eq_true, if_false, findById, hr, hv,
                Bool.not_false, if_true]
      · left
        simp only [Bool.not_eq_true] at hc
        simp only [updateRequestStatus, hc, Bool.not_false, if_true]

/-- Case analysis of the store left by `createRequest`: untouched, or
the old store with the new document appended. -/
theorem createRequest_store_cases (cat : Catalog) (store : Store)
    (nextId : Nat) (rid : String) (body : CreateBody) :
    (createRequest cat store nextId rid body).store = store ∨
    ∃ doc, (createRequest cat store nextId rid body).store =
      store ++ [(nextId, doc)] := by
  have hsave : (createSave cat store nextId rid body).store = store ∨
      ∃ doc, (createSave cat store nextId rid body).store =
        store ++ [(nextId, doc)] := by
    unfold createSave
    by_cases hv : validateDoc (newServiceRequest rid
        (body.selectionPath.getD emptySelection) body.requestType
        (body.clientInfo.getD emptyClient) body.requirements) = true
    · right
      refine ⟨newServiceRequest rid (body.selectionPath.getD emptySelection)
        body.requestType (body.clientInfo.getD emptyClient)
        body.requirements, ?_⟩
      simp [hv]
    · left
      simp only [Bool.not_eq_true] at hv
      simp [hv]
  by_cases h1 : body.requestType = some "service"
  · cases hsp : body.selectionPath with
    | none =>
        rw [createRequest_service_nosel_eq cat store nextId rid body h1 hsp]
        exact Or.inl rfl
    | some sp =>
        rw [createRequest_service_eq cat store nextId rid body sp h1 hsp]
        by_cases hd : (sp.selectedCategory.isNone ||
            sp.selectedService.isNone) = true
        · rw [if_pos hd]; exact Or.inl rfl
        · rw [if_neg hd]; exact hsave
  · by_cases h2 : body.requestType = some "combo"
    · cases hsp : body.selectionPath with
      | none =>
          rw [createRequest_combo_nosel_eq cat store nextId rid body h1 h2 hsp]
          exact Or.inl rfl
      | some sp =>
          rw [createRequest_combo_eq cat store nextId rid body sp h1 h2 hsp]
          by_cases hd : sp.selectedCombo.isNone = true
          · rw [if_pos hd]; exact Or.inl rfl
          · rw [if_neg hd]; exact hsave
    · rw [createRequest_other_eq cat store nextId rid body h1 h2]
      exact hsave

/-- Case analysis of the store left by `updateRequestPriority`. -/
theorem updateRequestPriority_store_cases (store : Store) (id : Nat)
    (priority : Option String) :
    (updateRequestPriority store id priority).store = store ∨
    ∃ r₀ p, lookupId id store = some r₀ ∧
      (updateRequestPriority store id priority).store =
        setById store id { r₀ with priority := p } := by
  cases priority with
  | none => exact Or.inl rfl
  | some p =>
      by_cases hc : validPriorities.contains p = true
      · cases hr : lookupId id store with
        | none =>
            left
            simp only [updateRequestPriority, hc, Bool.not_true,
              Bool.false_eq_true, if_false, findById, hr]
        | some r₀ =>
            right
            refine ⟨r₀, p, rfl, ?_⟩
            simp only [updateRequestPriority, hc, Bool.not_true,
              Bool.false_eq_true, if_false, findById, hr]
      · left
        simp only [Bool.not_eq_true] at hc
        simp only [updateRequestPriority, hc, Bool.not_false, if_true]

/-- Case analysis of the store left by `addAdminNote`: untouched, or the
found document with one note pushed. -/
theorem addAdminNote_store_cases (store : Store) (id : Nat)
    (note addedBy : Option String) (now : Nat) :
    (addAdminNote store id note addedBy now).store = store ∨
    ∃ r₀ n, note = some n ∧ lookupId id store = some r₀ ∧
      (addAdminNote store id note addedBy now).store =
        setById store id { r₀ with
          adminNotes := r₀.adminNotes ++ [⟨n, addedBy.getD "Admin", now⟩] } := by
  cases note with
  | none => exact Or.inl rfl
  | some n =>
      by_cases hn : n = ""
      · left
        subst hn
        simp [addAdminNote]
      · cases hr : lookupId id store with
        | none =>
            left
            simp only [addAdminNote, if_neg hn, findById, hr]
        | some r₀ =>
            by_cases hv : validateDoc { r₀ with
                adminNotes := r₀.adminNotes ++
                  [⟨n, addedBy.getD "Admin", now⟩] } = true
            · right
              refine ⟨r₀, n, rfl, rfl, ?_⟩
              simp only [addAdminNote, if_neg hn, findById, hr, hv, if_true]
            · left
              simp only [Bool.not_eq_true] at hv
              simp only [addAdminNote, if_neg hn, findById, hr, hv,
                Bool.false_eq_true, if_false]

/-- Case analysis of the store left by `assignRequest`. -/
theorem assignRequest_store_cases (store : Store) (id : Nat)
    (assignedTo : Option String) :
    (assignRequest store id assignedTo).store = store ∨
    ∃ r₀ a, lookupId id store = some r₀ ∧
      (assignRequest store id assignedTo).store =
        setById store id { r₀ with assignedTo := some a } := by
  cases assignedTo with
  | none => exact Or.inl rfl
  | some a =>
      by_cases ha : a = ""
      · left
        subst ha
        simp [assignRequest]
      · cases hr : lookupId id store with
        | none =>
            left
            simp only [assignRequest, if_neg ha, findById, hr]
        | some r₀ =>
            right
            refine ⟨r₀, a, rfl, ?_⟩
            simp only [assignRequest, if_neg ha, findById, hr]

/-- Case analysis of the store left by `deleteRequest`. -/
theorem deleteRequest_store_cases (store : Store) (id : Nat)
    (outcome : EmailOutcome) :
    (deleteRequest store id outcome).store = store ∨
    ∃ r₀, lookupId id store = some r₀ ∧
      (deleteRequest store id outcome).store =
        setById store id { r₀ with status := "cancelled" } := by
  cases hr : lookupId id store with
  | none =>
      left
      simp only [deleteRequest, findById, hr]
  | some r₀ =>
      right
      refine ⟨r₀, rfl, ?_⟩
      simp only [deleteRequest, findById, hr]

/-- C8: `adminNotes` is append-only — after any lifecycle operation
(create, status transition with or without a note, priority update,
note append, assignment, cancellation), every document still present
under a previously bound storage key carries its previous note list
with zero or more entries appended at the end, so entries are never
edited, removed or reordered and the list length never decreases. -/
theorem adminNotes_append_only (store : Store) (k : Nat)
    (r : ServiceRequest) (hk : lookupId k store = some r) :
    (∀ cat nextId rid body r',
      lookupId k (createRequest cat store nextId rid body).store = some r' →
      ∃ t, r'.adminNotes = r.adminNotes ++ t) ∧
    (∀ id status note outcome now r',
      lookupId k (updateRequestStatus store id status note outcome
        now).store = some r' →
      ∃ t, r'.adminNotes = r.adminNotes ++ t) ∧
    (∀ id priority r',
      lookupId k (updateRequestPriority store id priority).store = some r' →
      ∃ t, r'.adminNotes = r.adminNotes ++ t) ∧
    (∀ id note addedBy now r',
      lookupId k (addAdminNote store id note addedBy now).store = some r' →
      ∃ t, r'.adminNotes = r.adminNotes ++ t) ∧
    (∀ id assignee r',
      lookupId k (assignRequest store id assignee).store = some r' →
      ∃ t, r'.adminNotes = r.adminNotes ++ t) ∧
    (∀ id outcome r',
      lookupId k (deleteRequest store id outcome).store = some r' →
      ∃ t, r'.adminNotes = r.adminNotes ++ t) := by
  have same : ∀ r', lookupId k store = some r' →
      ∃ t, r'.adminNotes = r.adminNotes ++ t := by
    intro r' h'
    rw [hk] at h'
    injection h' with h''
    exact ⟨[], by rw [← h'']; simp⟩
  refine ⟨?_, ?_, ?_, ?_, ?_, ?_⟩
  · intro cat nextId rid body r' h'
    rcases createRequest_store_cases cat store nextId rid body with hcs | ⟨doc, hcs⟩
    · rw [hcs] at h'
      exact same r' h'
    · rw [hcs, lookupId_append_of_some store _ k r hk] at h'
      injection h' with h''
      exact ⟨[], by rw [← h'']; simp⟩
  · intro id status note outcome now r' h'
    rcases updateRequestStatus_store_cases store id status note outcome now
      with hcs | ⟨r₀, st, _, h₀, hcs⟩
    · rw [hcs] at h'
      exact same r' h'
    · rw [hcs] at h'
      exact notes_extend_setById store id k r r' r₀ _ hk h₀
        (updateStatus_notes_append r₀ st note now) h'
  · intro id priority r' h'
    rcases updateRequestPriority_store_cases store id priority
      with hcs | ⟨r₀, p, h₀, hcs⟩
    · rw [hcs] at h'
      exact same r' h'
    · rw [hcs] at h'
      exact notes_extend_setById store id k r r' r₀ _ hk h₀
        ⟨[], by simp⟩ h'
  · intro id note addedBy now r' h'
    rcases addAdminNote_store_cases store id note addedBy now
      with hcs | ⟨r₀, n, _, h₀, hcs⟩
    · rw [hcs] at h'
      exact same r' h'
    · rw [hcs] at h'
      exact notes_extend_setById store id k r r' r₀ _ hk h₀
        ⟨[⟨n, addedBy.getD "Admin", now⟩], rfl⟩ h'
  · intro id assignee r' h'
    rcases assignRequest_store_cases store id assignee
      with hcs | ⟨r₀, a, h₀, hcs⟩
    · rw [hcs] at h'
      exact same r' h'
    · rw [hcs] at h'
      exact notes_extend_setById store id k r r' r₀ _ hk h₀
        ⟨[], by simp⟩ h'
  · intro id outcome r' h'
    rcases deleteRequest_store_cases store id outcome
      with hcs | ⟨r₀, h₀, hcs⟩
    · rw [hcs] at h'
      exact same r' h'
    · rw [hcs] at h'
      exact notes_extend_setById store id k r r' r₀ _ hk h₀
        ⟨[], by simp⟩ h'

/-- C8 witness: a transition with a note on a concrete stored request
leaves its admin-note list equal to the previous list plus an appended
tail. -/
theorem adminNotes_append_only_witness :
    ∃ t, ((sampleWith "submitted").updateStatus "reviewing"
        (some "Looks good") 5).adminNotes =
      (sampleWith "submitted").adminNotes ++ t :=
  (adminNotes_append_only [(0, sampleWith "submitted")] 0
      (sampleWith "submitted") (by decide)).2.1
    0 (some "reviewing") (some "Looks good") EmailOutcome.ok 5
    ((sampleWith "submitted").updateStatus "reviewing" (some "Looks good") 5)
    (by decide)

/-- C9 counterexample: a request with no Authorization header at all is
waved through by `isAdmin` to the admin handlers — no authentication
check rejects the unauthenticated caller. -/
theorem admin_auth_cex :
    isAdmin { authorization := none } = MiddlewareOutcome.next := rfl

/-- C9 (amended): the `isAdmin` middleware guarding every admin
service-request endpoint (list, dashboard stats, status filter, detail,
status update, priority update, note append, assign, cancel, custom
email, recent) performs no bearer-token verification whatsoever: every
request, authenticated or not, is passed through to the handler. -/
theorem admin_auth_passthrough (req : HttpRequest) :
    isAdmin req = MiddlewareOutcome.next := rfl

end AppBackend
